import Mathlib

/-!
Verification development for the `api_utils` module of the llama-cloud managed
index integration.  The module resolves remote entities (projects, pipelines,
retrievers), fetches binary page assets over HTTP with a retry policy, and
converts raw search records into scored image nodes.

The embedding below models the remote service as a deterministic oracle
(`Client`), records every remote call in an explicit trace (`ApiCall`,
`FetchCall`) so that "no remote call is made" properties are statable, models
Python exceptions with `Except` over an exception type `Exc`, and models the
`uuid.uuid4()` generator as an injective draw from a freshness counter.
Relevance scores are only passed through by the code, so they are modelled as
`Option Int`; metadata dictionaries are association lists with Python
dict-update semantics (`dictInsert`).
-/

/-- Metadata values (Python `Any` restricted to the shapes the module writes). -/
inductive MetaVal where
  | str (s : String)
  | nat (n : Nat)
deriving DecidableEq, Repr

/-- A remote project entity (fields the module reads). -/
structure Project where
  id : String
  name : String
deriving DecidableEq, Repr

/-- A remote pipeline entity (fields the module reads). -/
structure Pipeline where
  id : String
  name : String
  project_id : String
deriving DecidableEq, Repr

/-- A remote retriever entity. `name` is optional as in the generated model. -/
structure Retriever where
  id : String
  project_id : String
  name : Option String
  pipelines : List Pipeline
deriving DecidableEq, Repr

/-- One remote API call, as recorded in the call trace of a resolver. -/
inductive ApiCall where
  | getProject (project_id : String)
  | listProjects (project_name : Option String) (organization_id : Option String)
  | getPipeline (pipeline_id : String)
  | searchPipelines (project_id : String) (pipeline_name : Option String)
      (pipeline_type : String)
  | getRetriever (retriever_id : String) (project_id : String)
  | listRetrievers (project_id : String) (name : String)
deriving DecidableEq, Repr

/-- The remote service, modelled as a deterministic oracle over its endpoints.
Fetch-by-id endpoints are total here: remote NotFound failures of id lookups
are out of scope of the claims, which concern the module's own logic. -/
structure Client where
  get_project : String → Project
  list_projects : Option String → Option String → List Project
  get_pipeline : String → Pipeline
  search_pipelines : String → Option String → String → List Pipeline
  get_retriever : String → String → Retriever
  list_retrievers : String → String → List Retriever

/-- Exceptions the module raises or classifies: the structured `ApiError`
(status code + body), httpx's `HTTPStatusError` (response status code),
Python `ValueError`, and any other exception type. -/
inductive Exc where
  | apiError (status_code : Nat) (body : String)
  | httpStatusError (response_status_code : Nat)
  | valueError (msg : String)
  | other (name : String)
deriving DecidableEq, Repr

/-- An HTTP response as the module consumes it: status code, body bytes,
body text. -/
structure HttpResp where
  status_code : Nat
  content : List Nat
  text : String
deriving DecidableEq, Repr

/-- Python f-string interpolation of an optional string (`None` prints as
`"None"`). -/
def pystr : Option String → String
  | none => "None"
  | some s => s

/-- Python truthiness of an optional string: `None` and `""` are falsy. -/
def truthyStr : Option String → Bool
  | none => false
  | some s => !s.isEmpty

/-- Python dict update `d[k] = v` on an association list: replace the value in
place when the key is present, append otherwise. -/
def dictInsert (d : List (String × MetaVal)) (k : String) (v : MetaVal) :
    List (String × MetaVal) :=
  if d.any (fun p => p.1 == k) then
    d.map (fun p => if p.1 == k then (k, v) else p)
  else
    d ++ [(k, v)]

/-- Dict lookup on an association list (first occurrence). -/
def dictLookup : List (String × MetaVal) → String → Option MetaVal
  | [], _ => none
  | p :: ps, k => if p.1 == k then some p.2 else dictLookup ps k

/-- `uuid.uuid4()` modelled as an injective draw from a freshness counter. -/
def uuidStr (n : Nat) : String :=
  String.mk (List.replicate (n + 1) 'u')

/-- `is_retryable_http_error`: retry only `ApiError` and `HTTPStatusError`
carrying a 5xx status code. -/
def is_retryable_http_error : Exc → Bool
  | Exc.apiError sc _ => 500 ≤ sc && sc < 600
  | Exc.httpStatusError sc => 500 ≤ sc && sc < 600
  | _ => false

/-- The tenacity retry loop of `retry_on_failure`: `attempt` is the 0-based
index of the current attempt, `fuel` the number of retries still allowed by
`stop_after_attempt`.  Returns the final outcome together with the total
number of attempts made.  With `reraise=True`, exhausting the budget re-raises
the last error unchanged. -/
def retryFrom {α : Type} (call : Nat → Except Exc α) :
    Nat → Nat → Except Exc α × Nat
  | 0, attempt => (call attempt, attempt + 1)
  | fuel + 1, attempt =>
    match call attempt with
    | Except.ok a => (Except.ok a, attempt + 1)
    | Except.error e =>
      if is_retryable_http_error e then retryFrom call fuel (attempt + 1)
      else (Except.error e, attempt + 1)

/-- `retry_on_failure`: at most 5 attempts total (`stop_after_attempt(5)`),
retrying only errors accepted by `is_retryable_http_error`.  The wrapped call
is modelled as a function of the attempt index so that per-attempt outcomes
are expressible. -/
def retry_on_failure {α : Type} (call : Nat → Except Exc α) :
    Except Exc α × Nat :=
  retryFrom call 4 0

/-- `PipelineType.MANAGED.value`, the pipeline type the name-lookup is
restricted to. -/
def PipelineType_MANAGED : String := "managed"

/-- `resolve_retriever`.  The non-persisted branch constructs a local
retriever with a fresh uuid (`uuidState` is the generator's state) and makes
no remote call.  The persisted branch follows Python truthiness on
`retriever_id` / `retriever_name` (`if retriever_id:` / `elif retriever_name:`)
and returns the first listed retriever whose name equals the requested name,
or `none`. -/
def resolve_retriever (client : Client) (uuidState : Nat) (project : Project)
    (retriever_name : Option String) (retriever_id : Option String)
    (persisted : Bool) : Option Retriever × List ApiCall :=
  if !persisted then
    (some { id := uuidStr uuidState, project_id := project.id,
            name := retriever_name, pipelines := [] }, [])
  else if truthyStr retriever_id then
    let rid := retriever_id.getD ""
    (some (client.get_retriever rid project.id),
     [ApiCall.getRetriever rid project.id])
  else if truthyStr retriever_name then
    let rname := retriever_name.getD ""
    let retrievers := client.list_retrievers project.id rname
    (retrievers.find? (fun r => r.name == retriever_name),
     [ApiCall.listRetrievers project.id rname])
  else
    (none, [])

/-- `resolve_project`: fetch by id when an explicit id is supplied
(`if project_id is not None`), otherwise list by name and organization and
require exactly one match, raising a descriptive `ValueError` otherwise. -/
def resolve_project (client : Client) (project_name : Option String)
    (project_id : Option String) (organization_id : Option String) :
    Except Exc Project × List ApiCall :=
  match project_id with
  | some pid => (Except.ok (client.get_project pid), [ApiCall.getProject pid])
  | none =>
    let projects := client.list_projects project_name organization_id
    let trace := [ApiCall.listProjects project_name organization_id]
    match projects with
    | [] =>
      (Except.error (Exc.valueError
        ("No project found with name " ++ pystr project_name)), trace)
    | [p] => (Except.ok p, trace)
    | _ :: _ :: _ =>
      (Except.error (Exc.valueError
        ("Multiple projects found with name " ++ pystr project_name ++
          ". Please specify organization_id.")), trace)

/-- `resolve_pipeline`: fetch by id when an explicit id is supplied
(`if pipeline_id is not None`), otherwise search by name within the given
project restricted to managed pipelines, requiring exactly one match.
When the name path is reached with `project = None` the Python code fails on
`project.id`; this is modelled as an attribute error with no call made. -/
def resolve_pipeline (client : Client) (pipeline_id : Option String)
    (project : Option Project) (pipeline_name : Option String) :
    Except Exc Pipeline × List ApiCall :=
  match pipeline_id with
  | some pid =>
    (Except.ok (client.get_pipeline pid), [ApiCall.getPipeline pid])
  | none =>
    match project with
    | none => (Except.error (Exc.other "AttributeError"), [])
    | some proj =>
      let pipelines :=
        client.search_pipelines proj.id pipeline_name PipelineType_MANAGED
      let trace :=
        [ApiCall.searchPipelines proj.id pipeline_name PipelineType_MANAGED]
      match pipelines with
      | [] =>
        (Except.error (Exc.valueError
          ("Unknown index name " ++ pystr pipeline_name ++
            ". Please confirm an index with this name exists.")), trace)
      | [p] => (Except.ok p, trace)
      | _ :: _ :: _ =>
        (Except.error (Exc.valueError
          ("Multiple pipelines found with name " ++ pystr pipeline_name ++
            " in project " ++ proj.name)), trace)

/-- `resolve_project_and_pipeline`: when a pipeline id is supplied, resolve the
pipeline by id first and override the caller's project id with the pipeline's
`project_id`; then resolve the project; only when no pipeline id was supplied,
resolve the pipeline by name within the resolved project. -/
def resolve_project_and_pipeline (client : Client)
    (pipeline_name : Option String) (pipeline_id : Option String)
    (project_name : Option String) (project_id : Option String)
    (organization_id : Option String) :
    Except Exc (Project × Pipeline) × List ApiCall :=
  match pipeline_id with
  | some pid =>
    let (pres, ptrace) :=
      resolve_pipeline client (some pid) none none
    match pres with
    | Except.error e => (Except.error e, ptrace)
    | Except.ok pipeline =>
      let (prres, prtrace) :=
        resolve_project client project_name (some pipeline.project_id)
          organization_id
      match prres with
      | Except.error e => (Except.error e, ptrace ++ prtrace)
      | Except.ok project => (Except.ok (project, pipeline), ptrace ++ prtrace)
  | none =>
    let (prres, prtrace) :=
      resolve_project client project_name project_id organization_id
    match prres with
    | Except.error e => (Except.error e, prtrace)
    | Except.ok project =>
      let (pres, ptrace) :=
        resolve_pipeline client none (some project) pipeline_name
      match pres with
      | Except.error e => (Except.error e, prtrace ++ ptrace)
      | Except.ok pipeline => (Except.ok (project, pipeline), prtrace ++ ptrace)

/-- The base64 alphabet. -/
def base64Alphabet : List Char :=
  "ABCDEFGHIJKLMNOPQRSTUVWXYZabcdefghijklmnopqrstuvwxyz0123456789+/".toList

/-- The base64 digit for a 6-bit value. -/
def b64Char (n : Nat) : Char := base64Alphabet.getD n 'A'

/-- `base64.b64encode(...).decode("utf-8")` on a byte list (standard alphabet
with padding). -/
def base64Encode : List Nat → String
  | [] => ""
  | [a] =>
    let n := a % 256
    String.mk [b64Char (n / 4), b64Char (n % 4 * 16), '=', '=']
  | [a, b] =>
    let x := a % 256 * 256 + b % 256
    String.mk [b64Char (x / 1024), b64Char (x / 16 % 64), b64Char (x % 16 * 4), '=']
  | a :: b :: c :: rest =>
    let x := a % 256 * 65536 + b % 256 * 256 + c % 256
    String.mk [b64Char (x / 262144), b64Char (x / 4096 % 64),
               b64Char (x / 64 % 64), b64Char (x % 64)] ++ base64Encode rest

/-- A page-asset fetch HTTP exchange, keyed the way the request builders key
it.  Sending a built request is modelled as an oracle from the request key to
the `HttpResp`. -/
inductive FetchCall where
  | screenshot (file_id : String) (page_index : Nat) (project_id : String)
  | figure (file_id : String) (page_index : Nat) (figure_name : String)
      (project_id : String)
deriving DecidableEq, Repr

/-- The HTTP transport for page assets, as a deterministic oracle: the
response the service gives to each built request. -/
def Transport : Type := FetchCall → HttpResp

/-- The undecorated body of `get_page_screenshot`: send the built request,
return the body bytes on a 2xx status, otherwise raise `ApiError` with the
status code and body text. -/
def get_page_screenshot_body (send : Transport) (file_id : String)
    (page_index : Nat) (project_id : String) : Except Exc (List Nat) :=
  let resp := send (FetchCall.screenshot file_id page_index project_id)
  if 200 ≤ resp.status_code ∧ resp.status_code < 300 then
    Except.ok resp.content
  else
    Except.error (Exc.apiError resp.status_code resp.text)

/-- The undecorated body of `get_page_figure`. -/
def get_page_figure_body (send : Transport) (file_id : String)
    (page_index : Nat) (figure_name : String) (project_id : String) :
    Except Exc (List Nat) :=
  let resp := send (FetchCall.figure file_id page_index figure_name project_id)
  if 200 ≤ resp.status_code ∧ resp.status_code < 300 then
    Except.ok resp.content
  else
    Except.error (Exc.apiError resp.status_code resp.text)

/-- `get_page_screenshot` as exported: the body wrapped by
`@retry_on_failure`.  The transport oracle is deterministic, so every attempt
sees the same response. -/
def get_page_screenshot (send : Transport) (file_id : String)
    (page_index : Nat) (project_id : String) : Except Exc (List Nat) :=
  (retry_on_failure
    (fun _ => get_page_screenshot_body send file_id page_index project_id)).1

/-- `aget_page_screenshot` (async variant, same logic). -/
def aget_page_screenshot (send : Transport) (file_id : String)
    (page_index : Nat) (project_id : String) : Except Exc (List Nat) :=
  (retry_on_failure
    (fun _ => get_page_screenshot_body send file_id page_index project_id)).1

/-- `get_page_figure` as exported: the body wrapped by `@retry_on_failure`. -/
def get_page_figure (send : Transport) (file_id : String) (page_index : Nat)
    (figure_name : String) (project_id : String) : Except Exc (List Nat) :=
  (retry_on_failure
    (fun _ =>
      get_page_figure_body send file_id page_index figure_name project_id)).1

/-- `aget_page_figure` (async variant, same logic). -/
def aget_page_figure (send : Transport) (file_id : String) (page_index : Nat)
    (figure_name : String) (project_id : String) : Except Exc (List Nat) :=
  (retry_on_failure
    (fun _ =>
      get_page_figure_body send file_id page_index figure_name project_id)).1

/-- A raw page-screenshot search record's inner node. -/
structure PageScreenshotNode where
  file_id : String
  page_index : Nat
  metadata : Option (List (String × MetaVal))
deriving DecidableEq, Repr

/-- A raw page-screenshot search record: inner node plus score. -/
structure PageScreenshotNodeWithScore where
  node : PageScreenshotNode
  score : Option Int
deriving DecidableEq, Repr

/-- A raw page-figure search record's inner node. -/
structure PageFigureNode where
  file_id : String
  page_index : Nat
  figure_name : String
  metadata : Option (List (String × MetaVal))
deriving DecidableEq, Repr

/-- A raw page-figure search record: inner node plus score. -/
structure PageFigureNodeWithScore where
  node : PageFigureNode
  score : Option Int
deriving DecidableEq, Repr

/-- The produced image content node: base64 payload plus metadata dict. -/
structure ImageNode where
  image : String
  metadata : List (String × MetaVal)
deriving DecidableEq, Repr

/-- The produced scored node. -/
structure NodeWithScore where
  node : ImageNode
  score : Option Int
deriving DecidableEq, Repr

/-- The metadata dict built for a screenshot record:
`{**(metadata or {}), "file_id": ..., "page_index": ...}` — the source
metadata (Python truthiness: `None` and `{}` both give `{}`) updated by the
derived keys in order. -/
def screenshotMeta (r : PageScreenshotNodeWithScore) :
    List (String × MetaVal) :=
  dictInsert
    (dictInsert (r.node.metadata.getD []) "file_id" (MetaVal.str r.node.file_id))
    "page_index" (MetaVal.nat r.node.page_index)

/-- The metadata dict built for a figure record (adds `figure_name`). -/
def figureMeta (r : PageFigureNodeWithScore) : List (String × MetaVal) :=
  dictInsert
    (dictInsert
      (dictInsert (r.node.metadata.getD [])
        "file_id" (MetaVal.str r.node.file_id))
      "page_index" (MetaVal.nat r.node.page_index))
    "figure_name" (MetaVal.str r.node.figure_name)

/-- The serial fetch-and-build loop of
`page_screenshot_nodes_to_node_with_score`: an exception from a fetch aborts
the loop and propagates; the trace records the fetches issued so far. -/
def screenshotLoop (send : Transport) (project_id : String) :
    List PageScreenshotNodeWithScore →
    Except Exc (List NodeWithScore) × List FetchCall
  | [] => (Except.ok [], [])
  | r :: rest =>
    let call := FetchCall.screenshot r.node.file_id r.node.page_index project_id
    match get_page_screenshot send r.node.file_id r.node.page_index project_id with
    | Except.error e => (Except.error e, [call])
    | Except.ok image_bytes =>
      let nws : NodeWithScore :=
        { node := { image := base64Encode image_bytes,
                    metadata := screenshotMeta r },
          score := r.score }
      let (res, tr) := screenshotLoop send project_id rest
      (match res with
       | Except.ok l => Except.ok (nws :: l)
       | Except.error e => Except.error e,
       call :: tr)

/-- `page_screenshot_nodes_to_node_with_score` (sync): short-circuit on an
absent or empty record list, otherwise fetch serially. -/
def page_screenshot_nodes_to_node_with_score (send : Transport)
    (raw_image_nodes : Option (List PageScreenshotNodeWithScore))
    (project_id : String) :
    Except Exc (List NodeWithScore) × List FetchCall :=
  match raw_image_nodes with
  | none => (Except.ok [], [])
  | some [] => (Except.ok [], [])
  | some nodes => screenshotLoop send project_id nodes

/-- `image_nodes_to_node_with_score`, the legacy alias of the sync screenshot
converter. -/
def image_nodes_to_node_with_score (send : Transport)
    (raw_image_nodes : Option (List PageScreenshotNodeWithScore))
    (project_id : String) :
    Except Exc (List NodeWithScore) × List FetchCall :=
  match raw_image_nodes with
  | none => (Except.ok [], [])
  | some [] => (Except.ok [], [])
  | some nodes =>
    page_screenshot_nodes_to_node_with_score send (some nodes) project_id

/-- The serial fetch-and-build loop of `page_figure_nodes_to_node_with_score`. -/
def figureLoop (send : Transport) (project_id : String) :
    List PageFigureNodeWithScore →
    Except Exc (List NodeWithScore) × List FetchCall
  | [] => (Except.ok [], [])
  | r :: rest =>
    let call := FetchCall.figure r.node.file_id r.node.page_index
      r.node.figure_name project_id
    match get_page_figure send r.node.file_id r.node.page_index
        r.node.figure_name project_id with
    | Except.error e => (Except.error e, [call])
    | Except.ok figure_bytes =>
      let nws : NodeWithScore :=
        { node := { image := base64Encode figure_bytes,
                    metadata := figureMeta r },
          score := r.score }
      let (res, tr) := figureLoop send project_id rest
      (match res with
       | Except.ok l => Except.ok (nws :: l)
       | Except.error e => Except.error e,
       call :: tr)

/-- `page_figure_nodes_to_node_with_score` (sync). -/
def page_figure_nodes_to_node_with_score (send : Transport)
    (raw_figure_nodes : Option (List PageFigureNodeWithScore))
    (project_id : String) :
    Except Exc (List NodeWithScore) × List FetchCall :=
  match raw_figure_nodes with
  | none => (Except.ok [], [])
  | some [] => (Except.ok [], [])
  | some nodes => figureLoop send project_id nodes

/-- The external job runner (`run_jobs`): runs independent tasks and returns
their results in input order; a task's exception propagates. -/
def run_jobs {α : Type} : List (Except Exc α) → Except Exc (List α)
  | [] => Except.ok []
  | t :: ts =>
    match t with
    | Except.error e => Except.error e
    | Except.ok a =>
      match run_jobs ts with
      | Except.error e => Except.error e
      | Except.ok rest => Except.ok (a :: rest)

/-- The zip-and-build phase of `apage_screenshot_nodes_to_node_with_score`:
pair the gathered byte lists positionally with the original records. -/
def screenshotZipBuild
    (pairs : List (List Nat × PageScreenshotNodeWithScore)) :
    List NodeWithScore :=
  pairs.map (fun p =>
    { node := { image := base64Encode p.1, metadata := screenshotMeta p.2 },
      score := p.2.score })

/-- `apage_screenshot_nodes_to_node_with_score` (async): fan out one fetch
task per record, gather via `run_jobs`, then zip the results back against the
input records.  All tasks are issued, so the trace holds one fetch per
record. -/
def apage_screenshot_nodes_to_node_with_score (send : Transport)
    (raw_image_nodes : Option (List PageScreenshotNodeWithScore))
    (project_id : String) :
    Except Exc (List NodeWithScore) × List FetchCall :=
  match raw_image_nodes with
  | none => (Except.ok [], [])
  | some [] => (Except.ok [], [])
  | some nodes =>
    let tasks := nodes.map (fun r =>
      aget_page_screenshot send r.node.file_id r.node.page_index project_id)
    let trace := nodes.map (fun r =>
      FetchCall.screenshot r.node.file_id r.node.page_index project_id)
    match run_jobs tasks with
    | Except.error e => (Except.error e, trace)
    | Except.ok image_bytes_list =>
      (Except.ok (screenshotZipBuild (image_bytes_list.zip nodes)), trace)

/-- `aimage_nodes_to_node_with_score`, the legacy alias of the async
screenshot converter. -/
def aimage_nodes_to_node_with_score (send : Transport)
    (raw_image_nodes : Option (List PageScreenshotNodeWithScore))
    (project_id : String) :
    Except Exc (List NodeWithScore) × List FetchCall :=
  match raw_image_nodes with
  | none => (Except.ok [], [])
  | some [] => (Except.ok [], [])
  | some nodes =>
    apage_screenshot_nodes_to_node_with_score send (some nodes) project_id

/-- The zip-and-build phase of `apage_figure_nodes_to_node_with_score`. -/
def figureZipBuild (pairs : List (List Nat × PageFigureNodeWithScore)) :
    List NodeWithScore :=
  pairs.map (fun p =>
    { node := { image := base64Encode p.1, metadata := figureMeta p.2 },
      score := p.2.score })

/-- `apage_figure_nodes_to_node_with_score` (async). -/
def apage_figure_nodes_to_node_with_score (send : Transport)
    (raw_figure_nodes : Option (List PageFigureNodeWithScore))
    (project_id : String) :
    Except Exc (List NodeWithScore) × List FetchCall :=
  match raw_figure_nodes with
  | none => (Except.ok [], [])
  | some [] => (Except.ok [], [])
  | some nodes =>
    let tasks := nodes.map (fun r =>
      aget_page_figure send r.node.file_id r.node.page_index
        r.node.figure_name project_id)
    let trace := nodes.map (fun r =>
      FetchCall.figure r.node.file_id r.node.page_index
        r.node.figure_name project_id)
    match run_jobs tasks with
    | Except.error e => (Except.error e, trace)
    | Except.ok figure_bytes_list =>
      (Except.ok (figureZipBuild (figure_bytes_list.zip nodes)), trace)

/-- Spec-side retryability predicate, written from the spec's words: an error
is retryable iff it carries an HTTP-style status code in the inclusive range
500–599 (covering the structured API-error type and the generic HTTP-status
error type); all other errors are non-retryable. -/
def spec_retryable : Exc → Bool
  | Exc.apiError sc _ => 500 ≤ sc && sc ≤ 599
  | Exc.httpStatusError sc => 500 ≤ sc && sc ≤ 599
  | _ => false

/-- Whether an API call is a list/search (name-based) call rather than a
fetch-by-id. -/
def isListOrSearch : ApiCall → Bool
  | ApiCall.listProjects _ _ => true
  | ApiCall.searchPipelines _ _ _ => true
  | ApiCall.listRetrievers _ _ => true
  | _ => false

/-- A fixed project used by concrete test oracles. -/
def sampleProject : Project := { id := "proj-1", name := "alpha" }

/-- A fixed managed pipeline used by concrete test oracles. -/
def samplePipeline : Pipeline :=
  { id := "pipe-1", name := "idx", project_id := "proj-1" }

/-- A fixed retriever used by concrete test oracles. -/
def sampleRetriever : Retriever :=
  { id := "ret-1", project_id := "proj-1", name := some "retr", pipelines := [] }

/-- A service oracle whose listings each return exactly one entity. -/
def oneClient : Client :=
  { get_project := fun pid => { id := pid, name := "alpha" },
    list_projects := fun _ _ => [sampleProject],
    get_pipeline := fun pid =>
      { id := pid, name := "idx", project_id := "proj-1" },
    search_pipelines := fun _ _ _ => [samplePipeline],
    get_retriever := fun rid pid =>
      { id := rid, project_id := pid, name := some "retr", pipelines := [] },
    list_retrievers := fun _ _ => [sampleRetriever] }

/-- A service oracle whose listings are all empty. -/
def emptyClient : Client :=
  { get_project := fun pid => { id := pid, name := "alpha" },
    list_projects := fun _ _ => [],
    get_pipeline := fun pid =>
      { id := pid, name := "idx", project_id := "proj-1" },
    search_pipelines := fun _ _ _ => [],
    get_retriever := fun rid pid =>
      { id := rid, project_id := pid, name := some "retr", pipelines := [] },
    list_retrievers := fun _ _ => [] }

/-- A service oracle whose listings each return two entities. -/
def dupClient : Client :=
  { get_project := fun pid => { id := pid, name := "alpha" },
    list_projects := fun _ _ =>
      [sampleProject, { id := "proj-2", name := "alpha" }],
    get_pipeline := fun pid =>
      { id := pid, name := "idx", project_id := "proj-1" },
    search_pipelines := fun _ _ _ =>
      [samplePipeline, { id := "pipe-2", name := "idx", project_id := "proj-1" }],
    get_retriever := fun rid pid =>
      { id := rid, project_id := pid, name := some "retr", pipelines := [] },
    list_retrievers := fun _ _ => [sampleRetriever] }

/-- A transport oracle that always answers 200 with body bytes `[1, 2, 3]`. -/
def sampleSend : Transport :=
  fun _ => { status_code := 200, content := [1, 2, 3], text := "ok" }

/-- A concrete raw screenshot record whose metadata already holds a `file_id`
key (to exercise derived-key precedence). -/
def sampleShotRecord : PageScreenshotNodeWithScore :=
  { node := { file_id := "f", page_index := 0,
              metadata := some [("file_id", MetaVal.str "stale")] },
    score := some 1 }

/-- A concrete raw figure record. -/
def sampleFigRecord : PageFigureNodeWithScore :=
  { node := { file_id := "f", page_index := 0, figure_name := "fig",
              metadata := some [("page_index", MetaVal.str "stale")] },
    score := some 2 }

/-- A call oracle that always fails with a retryable 503 API error. -/
def failingCall : Nat → Except Exc (List Nat) :=
  fun _ => Except.error (Exc.apiError 503 "unavailable")

/-- A call oracle that always fails with a non-retryable 404 API error. -/
def fatalCall : Nat → Except Exc (List Nat) :=
  fun _ => Except.error (Exc.apiError 404 "missing")

/-- A deterministic call's outcome is unchanged by the retry wrapper: every
attempt sees the same result, so a success returns at once, a non-retryable
error is raised at once, and a retryable error is re-raised unchanged after
the budget runs out. -/
theorem retry_const {α : Type} (r : Except Exc α) :
    (retry_on_failure (fun _ => r)).1 = r := by
  cases r with
  | ok a => rfl
  | error e =>
    by_cases h : is_retryable_http_error e
    · simp [retry_on_failure, retryFrom, h]
    · simp [retry_on_failure, retryFrom, h]

/-- The attempt counter of the retry loop never exceeds the starting attempt
index plus the fuel plus one. -/
theorem retryFrom_attempts_le {α : Type} (call : Nat → Except Exc α) :
    ∀ fuel attempt, (retryFrom call fuel attempt).2 ≤ attempt + fuel + 1
  | 0, attempt => by simp [retryFrom]
  | fuel + 1, attempt => by
    unfold retryFrom
    cases call attempt with
    | ok a => simp
    | error e =>
      by_cases hr : is_retryable_http_error e
      · have := retryFrom_attempts_le call fuel (attempt + 1)
        simp [hr]
        omega
      · simp [hr]

/-- `run_jobs` over a list of tasks that each succeed returns the list of
their results in input order. -/
theorem run_jobs_map_ok {α β : Type} (f : β → Except Exc α) (g : β → α) :
    ∀ l : List β, (∀ b ∈ l, f b = Except.ok (g b)) →
      run_jobs (l.map f) = Except.ok (l.map g)
  | [], _ => rfl
  | b :: bs, h => by
    have hb := h b (List.mem_cons_self b bs)
    have hbs :=
      run_jobs_map_ok f g bs (fun x hx => h x (List.mem_cons_of_mem b hx))
    simp [run_jobs, hb, hbs]

/-- Zipping a mapped list back against its source and mapping is a single map
over the source. -/
theorem map_zip_self {α β γ : Type} (g : α → β) (h : β × α → γ) :
    ∀ l : List α, ((l.map g).zip l).map h = l.map (fun x => h (g x, x))
  | [] => rfl
  | x :: xs => by simp [map_zip_self g h xs]

/-- Looking up `k` after in-place substitution of `k`'s value yields the new
value, provided some entry has key `k`. -/
theorem dictLookup_map_subst (k : String) (v : MetaVal) :
    ∀ d : List (String × MetaVal), d.any (fun p => p.1 == k) = true →
      dictLookup (d.map (fun p => if p.1 == k then (k, v) else p)) k = some v
  | [], h => by simp at h
  | q :: qs, h => by
    cases hq : (q.1 == k) with
    | true => simp [dictLookup, hq]
    | false =>
      have hqs : qs.any (fun p => p.1 == k) = true := by
        rw [List.any_cons, hq, Bool.false_or] at h
        exact h
      have ih := dictLookup_map_subst k v qs hqs
      simp [dictLookup, hq] at ih ⊢
      exact ih

/-- Looking up `k` in `d ++ [(k, v)]` yields `v` when no entry of `d` has
key `k`. -/
theorem dictLookup_append_self (k : String) (v : MetaVal) :
    ∀ d : List (String × MetaVal), d.any (fun p => p.1 == k) = false →
      dictLookup (d ++ [(k, v)]) k = some v
  | [], _ => by simp [dictLookup]
  | q :: qs, h => by
    have hq : (q.1 == k) = false := by
      simp [List.any_cons] at h
      simpa using h.1
    have hqs : qs.any (fun p => p.1 == k) = false := by
      simp [List.any_cons] at h
      simpa using h.2
    simp [dictLookup, hq, dictLookup_append_self k v qs hqs]

/-- Python dict-update then lookup of the same key yields the new value. -/
theorem dictLookup_dictInsert_self (d : List (String × MetaVal)) (k : String)
    (v : MetaVal) : dictLookup (dictInsert d k v) k = some v := by
  unfold dictInsert
  cases h : d.any (fun p => p.1 == k) with
  | true =>
    rw [if_pos rfl]
    exact dictLookup_map_subst k v d h
  | false =>
    rw [if_neg Bool.false_ne_true]
    exact dictLookup_append_self k v d h

/-- In-place substitution of `k`'s value leaves other keys' lookups alone. -/
theorem dictLookup_map_subst_ne (k k' : String) (v : MetaVal)
    (hne : (k == k') = false) :
    ∀ d : List (String × MetaVal),
      dictLookup (d.map (fun p => if p.1 == k then (k, v) else p)) k'
        = dictLookup d k'
  | [] => rfl
  | q :: qs => by
    have ih := dictLookup_map_subst_ne k k' v hne qs
    cases hq : (q.1 == k) with
    | true =>
      have hqk : q.1 = k := by simpa using hq
      have hq' : (q.1 == k') = false := by simpa [hqk] using hne
      simp [dictLookup, hq, hne, hq'] at ih ⊢
      exact ih
    | false =>
      simp [dictLookup, hq] at ih ⊢
      rw [ih]

/-- Appending an entry for `k` leaves other keys' lookups alone. -/
theorem dictLookup_append_ne (k k' : String) (v : MetaVal)
    (hne : (k == k') = false) :
    ∀ d : List (String × MetaVal),
      dictLookup (d ++ [(k, v)]) k' = dictLookup d k'
  | [] => by simp [dictLookup, hne]
  | q :: qs => by simp [dictLookup, dictLookup_append_ne k k' v hne qs]

/-- Python dict-update of one key leaves other keys' lookups alone. -/
theorem dictLookup_dictInsert_ne (d : List (String × MetaVal)) (k k' : String)
    (v : MetaVal) (hne : (k == k') = false) :
    dictLookup (dictInsert d k v) k' = dictLookup d k' := by
  unfold dictInsert
  cases h : d.any (fun p => p.1 == k) with
  | true =>
    rw [if_pos rfl]
    exact dictLookup_map_subst_ne k k' v hne d
  | false =>
    rw [if_neg Bool.false_ne_true]
    exact dictLookup_append_ne k k' v hne d

/-- The model uuid generator is injective: distinct generator states give
distinct ids. -/
theorem uuidStr_inj {n m : Nat} (h : uuidStr n = uuidStr m) : n = m := by
  unfold uuidStr at h
  have h2 : List.replicate (n + 1) 'u' = List.replicate (m + 1) 'u' := by
    injection h
  have h3 := congrArg List.length h2
  simp at h3
  exact h3

/-- A page-screenshot fetch against a 2xx response returns the body bytes. -/
theorem aget_page_screenshot_ok (send : Transport) (f : String) (p : Nat)
    (pid : String)
    (h : 200 ≤ (send (FetchCall.screenshot f p pid)).status_code ∧
         (send (FetchCall.screenshot f p pid)).status_code < 300) :
    aget_page_screenshot send f p pid
      = Except.ok (send (FetchCall.screenshot f p pid)).content := by
  have hbody : get_page_screenshot_body send f p pid
      = Except.ok (send (FetchCall.screenshot f p pid)).content := by
    simp [get_page_screenshot_body, h]
  exact (retry_const (get_page_screenshot_body send f p pid)).trans hbody

/-- A page-figure fetch against a 2xx response returns the body bytes. -/
theorem aget_page_figure_ok (send : Transport) (f : String) (p : Nat)
    (fig pid : String)
    (h : 200 ≤ (send (FetchCall.figure f p fig pid)).status_code ∧
         (send (FetchCall.figure f p fig pid)).status_code < 300) :
    aget_page_figure send f p fig pid
      = Except.ok (send (FetchCall.figure f p fig pid)).content := by
  have hbody : get_page_figure_body send f p fig pid
      = Except.ok (send (FetchCall.figure f p fig pid)).content := by
    simp [get_page_figure_body, h]
  exact (retry_const (get_page_figure_body send f p fig pid)).trans hbody

/-- C7: `is_retryable_http_error` returns true iff its argument is a
structured API error or an HTTP-status error whose status code lies in the
inclusive range 500–599 (stated as agreement with the spec-written predicate
`spec_retryable`); in particular it is true for status 500 and 599, false for
499 and 600, and false for every exception that is neither of those types. -/
theorem C7_is_retryable_http_error_characterisation :
    (∀ e : Exc, is_retryable_http_error e = spec_retryable e)
    ∧ is_retryable_http_error (Exc.apiError 500 "") = true
    ∧ is_retryable_http_error (Exc.apiError 599 "") = true
    ∧ is_retryable_http_error (Exc.apiError 499 "") = false
    ∧ is_retryable_http_error (Exc.apiError 600 "") = false
    ∧ is_retryable_http_error (Exc.httpStatusError 500) = true
    ∧ is_retryable_http_error (Exc.httpStatusError 599) = true
    ∧ is_retryable_http_error (Exc.httpStatusError 499) = false
    ∧ is_retryable_http_error (Exc.httpStatusError 600) = false
    ∧ (∀ msg, is_retryable_http_error (Exc.valueError msg) = false)
    ∧ (∀ s, is_retryable_http_error (Exc.other s) = false) := by
  refine ⟨?_, by decide, by decide, by decide, by decide, by decide,
    by decide, by decide, by decide, fun msg => rfl, fun s => rfl⟩
  intro e
  cases e with
  | apiError sc b =>
    simp only [is_retryable_http_error, spec_retryable]
    congr 1
    exact decide_eq_decide.mpr (by omega)
  | httpStatusError sc =>
    simp only [is_retryable_http_error, spec_retryable]
    congr 1
    exact decide_eq_decide.mpr (by omega)
  | valueError m => rfl
  | other s => rfl

/-- C5: each of the four page-asset fetch functions returns the raw response
body bytes when the response status code is in the inclusive range 200–299,
and for any other status code raises a structured API error carrying that
status code and the response body text, unconditionally (the retry wrapper
does not change the outcome against a deterministic transport). -/
theorem C5_page_asset_fetch_status_handling (send : Transport)
    (file_id : String) (page_index : Nat) (figure_name project_id : String) :
    (get_page_screenshot send file_id page_index project_id =
      (let resp := send (FetchCall.screenshot file_id page_index project_id)
       if 200 ≤ resp.status_code ∧ resp.status_code < 300 then
         Except.ok resp.content
       else Except.error (Exc.apiError resp.status_code resp.text)))
    ∧ (aget_page_screenshot send file_id page_index project_id =
      (let resp := send (FetchCall.screenshot file_id page_index project_id)
       if 200 ≤ resp.status_code ∧ resp.status_code < 300 then
         Except.ok resp.content
       else Except.error (Exc.apiError resp.status_code resp.text)))
    ∧ (get_page_figure send file_id page_index figure_name project_id =
      (let resp :=
        send (FetchCall.figure file_id page_index figure_name project_id)
       if 200 ≤ resp.status_code ∧ resp.status_code < 300 then
         Except.ok resp.content
       else Except.error (Exc.apiError resp.status_code resp.text)))
    ∧ (aget_page_figure send file_id page_index figure_name project_id =
      (let resp :=
        send (FetchCall.figure file_id page_index figure_name project_id)
       if 200 ≤ resp.status_code ∧ resp.status_code < 300 then
         Except.ok resp.content
       else Except.error (Exc.apiError resp.status_code resp.text))) :=
  ⟨retry_const _, retry_const _, retry_const _, retry_const _⟩

/-- C9: all four conversion functions and the two legacy aliases map an
absent (`none`) or empty input record list to the empty output list with an
empty fetch trace, performing zero asset-fetch calls. -/
theorem C9_empty_input_short_circuit (send : Transport) (project_id : String) :
    page_screenshot_nodes_to_node_with_score send none project_id
      = (Except.ok [], [])
    ∧ page_screenshot_nodes_to_node_with_score send (some []) project_id
      = (Except.ok [], [])
    ∧ page_figure_nodes_to_node_with_score send none project_id
      = (Except.ok [], [])
    ∧ page_figure_nodes_to_node_with_score send (some []) project_id
      = (Except.ok [], [])
    ∧ apage_screenshot_nodes_to_node_with_score send none project_id
      = (Except.ok [], [])
    ∧ apage_screenshot_nodes_to_node_with_score send (some []) project_id
      = (Except.ok [], [])
    ∧ apage_figure_nodes_to_node_with_score send none project_id
      = (Except.ok [], [])
    ∧ apage_figure_nodes_to_node_with_score send (some []) project_id
      = (Except.ok [], [])
    ∧ image_nodes_to_node_with_score send none project_id
      = (Except.ok [], [])
    ∧ image_nodes_to_node_with_score send (some []) project_id
      = (Except.ok [], [])
    ∧ aimage_nodes_to_node_with_score send none project_id
      = (Except.ok [], [])
    ∧ aimage_nodes_to_node_with_score send (some []) project_id
      = (Except.ok [], []) :=
  ⟨rfl, rfl, rfl, rfl, rfl, rfl, rfl, rfl, rfl, rfl, rfl, rfl⟩

/-- C1: when a pipeline id is supplied, `resolve_project_and_pipeline`
resolves the pipeline by id first, resolves the project with the project id
taken from that pipeline's `project_id` (the result and trace are independent
of the caller-supplied project id and name), and never searches the pipeline
by name (the trace is exactly one get-pipeline then one get-project call);
when no pipeline id is supplied, the project is resolved first and the
pipeline is then searched by name within the resolved project; the returned
pair is (resolved project, resolved pipeline). -/
theorem C1_resolve_project_and_pipeline_ordering (client : Client)
    (pipeline_name project_name project_id organization_id : Option String)
    (pid : String) (proj : Project) (pl : Pipeline) (tr : List ApiCall) :
    (resolve_project_and_pipeline client pipeline_name (some pid)
        project_name project_id organization_id
      = (Except.ok
          (client.get_project (client.get_pipeline pid).project_id,
           client.get_pipeline pid),
         [ApiCall.getPipeline pid,
          ApiCall.getProject (client.get_pipeline pid).project_id]))
    ∧ (resolve_project client project_name project_id organization_id
          = (Except.ok proj, tr) →
       client.search_pipelines proj.id pipeline_name PipelineType_MANAGED
          = [pl] →
       resolve_project_and_pipeline client pipeline_name none project_name
          project_id organization_id
        = (Except.ok (proj, pl),
           tr ++ [ApiCall.searchPipelines proj.id pipeline_name
                    PipelineType_MANAGED])) := by
  constructor
  · rfl
  · intro h1 h2
    simp [resolve_project_and_pipeline, resolve_pipeline, h1, h2]

/-- C3: name-based resolution of a project or pipeline raises a descriptive
value error containing the requested name on zero remote matches, raises a
value error naming the ambiguity on two or more matches, and returns the
single entity on exactly one match. -/
theorem C3_name_resolution_match_cardinality (client : Client)
    (project_name organization_id pipeline_name : Option String)
    (p proj : Project) (pl : Pipeline) :
    (client.list_projects project_name organization_id = [] →
      resolve_project client project_name none organization_id
        = (Except.error (Exc.valueError
            ("No project found with name " ++ pystr project_name)),
           [ApiCall.listProjects project_name organization_id]))
    ∧ (∀ p₁ p₂ rest,
        client.list_projects project_name organization_id = p₁ :: p₂ :: rest →
        resolve_project client project_name none organization_id
          = (Except.error (Exc.valueError
              ("Multiple projects found with name " ++ pystr project_name ++
                ". Please specify organization_id.")),
             [ApiCall.listProjects project_name organization_id]))
    ∧ (client.list_projects project_name organization_id = [p] →
        resolve_project client project_name none organization_id
          = (Except.ok p,
             [ApiCall.listProjects project_name organization_id]))
    ∧ (client.search_pipelines proj.id pipeline_name PipelineType_MANAGED
          = [] →
        resolve_pipeline client none (some proj) pipeline_name
          = (Except.error (Exc.valueError
              ("Unknown index name " ++ pystr pipeline_name ++
                ". Please confirm an index with this name exists.")),
             [ApiCall.searchPipelines proj.id pipeline_name
                PipelineType_MANAGED]))
    ∧ (∀ q₁ q₂ rest,
        client.search_pipelines proj.id pipeline_name PipelineType_MANAGED
          = q₁ :: q₂ :: rest →
        resolve_pipeline client none (some proj) pipeline_name
          = (Except.error (Exc.valueError
              ("Multiple pipelines found with name " ++ pystr pipeline_name ++
                " in project " ++ proj.name)),
             [ApiCall.searchPipelines proj.id pipeline_name
                PipelineType_MANAGED]))
    ∧ (client.search_pipelines proj.id pipeline_name PipelineType_MANAGED
          = [pl] →
        resolve_pipeline client none (some proj) pipeline_name
          = (Except.ok pl,
             [ApiCall.searchPipelines proj.id pipeline_name
                PipelineType_MANAGED])) := by
  refine ⟨?_, ?_, ?_, ?_, ?_, ?_⟩
  · intro h
    simp [resolve_project, h]
  · intro p₁ p₂ rest h
    simp [resolve_project, h]
  · intro h
    simp [resolve_project, h]
  · intro h
    simp [resolve_pipeline, h]
  · intro q₁ q₂ rest h
    simp [resolve_pipeline, h]
  · intro h
    simp [resolve_pipeline, h]

/-- C8: for every entity kind, supplying an explicit id makes the resolver
perform exactly one fetch-by-id call and no list or search call (for the
retriever, "supplied" follows the code's Python truthiness: a non-empty id
string). -/
theorem C8_id_resolution_never_lists (client : Client)
    (pid pplid rid : String)
    (project_name organization_id pipeline_name : Option String)
    (projOpt : Option Project) (project : Project) (n : Nat)
    (retriever_name : Option String) :
    (resolve_project client project_name (some pid) organization_id
      = (Except.ok (client.get_project pid), [ApiCall.getProject pid]))
    ∧ ((resolve_project client project_name (some pid) organization_id).2.all
        (fun c => !isListOrSearch c) = true)
    ∧ (resolve_pipeline client (some pplid) projOpt pipeline_name
      = (Except.ok (client.get_pipeline pplid), [ApiCall.getPipeline pplid]))
    ∧ ((resolve_pipeline client (some pplid) projOpt pipeline_name).2.all
        (fun c => !isListOrSearch c) = true)
    ∧ (rid ≠ "" →
        resolve_retriever client n project retriever_name (some rid) true
          = (some (client.get_retriever rid project.id),
             [ApiCall.getRetriever rid project.id]))
    ∧ (rid ≠ "" →
        (resolve_retriever client n project retriever_name (some rid)
            true).2.all (fun c => !isListOrSearch c) = true) := by
  have hres : ∀ h : rid ≠ "",
      resolve_retriever client n project retriever_name (some rid) true
        = (some (client.get_retriever rid project.id),
           [ApiCall.getRetriever rid project.id]) := by
    intro h
    simp [resolve_retriever, truthyStr, String.isEmpty_iff, h]
  refine ⟨rfl, rfl, rfl, rfl, hres, ?_⟩
  intro h
  rw [hres h]
  rfl

/-- C10: with `persisted` false, `resolve_retriever` ignores a supplied
retriever id entirely: the result is the locally constructed retriever with
the freshly generated id (independent of the supplied id), no remote call is
made, and whenever the supplied id differs from the generated one the
returned id differs from the supplied id. -/
theorem C10_nonpersisted_ignores_retriever_id (client : Client) (n : Nat)
    (project : Project) (retriever_name : Option String) (rid : String) :
    (resolve_retriever client n project retriever_name (some rid) false
      = (some { id := uuidStr n, project_id := project.id,
                name := retriever_name, pipelines := [] }, []))
    ∧ (∀ rid₁ rid₂ : Option String,
        resolve_retriever client n project retriever_name rid₁ false
          = resolve_retriever client n project retriever_name rid₂ false)
    ∧ (rid ≠ uuidStr n → ∀ r : Retriever,
        (resolve_retriever client n project retriever_name (some rid)
            false).1 = some r →
        r.id ≠ rid) := by
  refine ⟨rfl, fun _ _ => rfl, ?_⟩
  intro hne r hr
  have h2 : ({ id := uuidStr n, project_id := project.id,
               name := retriever_name, pipelines := [] } : Retriever) = r :=
    Option.some.inj hr
  subst h2
  exact fun h => hne h.symm

/-- C4: `resolve_retriever` with `persisted` false returns a locally
constructed retriever with the freshly generated id, the project's id, the
requested name and an empty pipeline list, making no remote call, and two
calls (distinct generator states) produce different ids; with `persisted`
true it fetches by id when a (truthy) id is given, otherwise with a (truthy)
name it returns the first listed retriever whose name exactly equals the
requested name — an absence (`none`, never an exception) when no exact match
exists — and with neither id nor name it returns an absence with no call. -/
theorem C4_resolve_retriever_behaviour (client : Client) (n m : Nat)
    (project : Project) (retriever_name : Option String) (s t : String) :
    (resolve_retriever client n project retriever_name none false
      = (some { id := uuidStr n, project_id := project.id,
                name := retriever_name, pipelines := [] }, []))
    ∧ (n ≠ m → uuidStr n ≠ uuidStr m)
    ∧ (s ≠ "" →
        resolve_retriever client n project retriever_name (some s) true
          = (some (client.get_retriever s project.id),
             [ApiCall.getRetriever s project.id]))
    ∧ (t ≠ "" →
        resolve_retriever client n project (some t) none true
          = ((client.list_retrievers project.id t).find?
               (fun r => r.name == some t),
             [ApiCall.listRetrievers project.id t]))
    ∧ (t ≠ "" →
        (∀ r ∈ client.list_retrievers project.id t, r.name ≠ some t) →
        (resolve_retriever client n project (some t) none true).1 = none)
    ∧ (resolve_retriever client n project none none true = (none, [])) := by
  have hname : ∀ h : t ≠ "",
      resolve_retriever client n project (some t) none true
        = ((client.list_retrievers project.id t).find?
             (fun r => r.name == some t),
           [ApiCall.listRetrievers project.id t]) := by
    intro h
    simp [resolve_retriever, truthyStr, String.isEmpty_iff, h]
  refine ⟨rfl, ?_, ?_, hname, ?_, rfl⟩
  · intro hnm heq
    exact hnm (uuidStr_inj heq)
  · intro h
    simp [resolve_retriever, truthyStr, String.isEmpty_iff, h]
  · intro h hnone
    rw [hname h]
    simp only [List.find?_eq_none]
    intro r hr
    simpa using hnone r hr

/-- C6: a wrapped call is attempted at most 5 times in total; an error that
`is_retryable_http_error` rejects propagates unchanged after the first
attempt; and when all five attempts fail with the first four retryable, the
fifth attempt's error is re-raised unchanged (not wrapped). -/
theorem C6_retry_budget_and_reraise {α : Type} :
    (∀ call : Nat → Except Exc α, (retry_on_failure call).2 ≤ 5)
    ∧ (∀ (call : Nat → Except Exc α) (e : Exc),
        call 0 = Except.error e → is_retryable_http_error e = false →
        retry_on_failure call = (Except.error e, 1))
    ∧ (∀ (call : Nat → Except Exc α) (e : Exc),
        (∀ i, i < 4 → ∃ e', call i = Except.error e'
            ∧ is_retryable_http_error e' = true) →
        call 4 = Except.error e →
        retry_on_failure call = (Except.error e, 5)) := by
  refine ⟨?_, ?_, ?_⟩
  · intro call
    have h := retryFrom_attempts_le call 4 0
    simpa [retry_on_failure] using h
  · intro call e h0 hnr
    simp [retry_on_failure, retryFrom, h0, hnr]
  · intro call e h h4
    obtain ⟨e0, he0, hr0⟩ := h 0 (by omega)
    obtain ⟨e1, he1, hr1⟩ := h 1 (by omega)
    obtain ⟨e2, he2, hr2⟩ := h 2 (by omega)
    obtain ⟨e3, he3, hr3⟩ := h 3 (by omega)
    simp [retry_on_failure, retryFrom, he0, hr0, he1, hr1, he2, hr2,
      he3, hr3, h4]

/-- C2: when every fetch succeeds (2xx transport responses), the async
converters return one output node per input record, in input order: the i-th
node's metadata is the i-th record's metadata (empty when absent) overlaid by
the derived keys (file id, page index, and figure name for figures) with the
derived keys winning on collision (the `dictLookup` conjuncts), its image is
the base64 encoding of the bytes fetched for the i-th record, and its score
is the i-th record's score. -/
theorem C2_async_conversion_pointwise (send : Transport) (project_id : String)
    (raws : List PageScreenshotNodeWithScore)
    (rawf : List PageFigureNodeWithScore)
    (hs : ∀ r ∈ raws,
      200 ≤ (send (FetchCall.screenshot r.node.file_id r.node.page_index
        project_id)).status_code ∧
      (send (FetchCall.screenshot r.node.file_id r.node.page_index
        project_id)).status_code < 300)
    (hf : ∀ r ∈ rawf,
      200 ≤ (send (FetchCall.figure r.node.file_id r.node.page_index
        r.node.figure_name project_id)).status_code ∧
      (send (FetchCall.figure r.node.file_id r.node.page_index
        r.node.figure_name project_id)).status_code < 300) :
    ((apage_screenshot_nodes_to_node_with_score send (some raws)
        project_id).1
      = Except.ok (raws.map (fun r =>
          { node := { image := base64Encode (send (FetchCall.screenshot
                        r.node.file_id r.node.page_index
                        project_id)).content,
                      metadata := screenshotMeta r },
            score := r.score })))
    ∧ (∀ r : PageScreenshotNodeWithScore,
        dictLookup (screenshotMeta r) "file_id"
          = some (MetaVal.str r.node.file_id)
        ∧ dictLookup (screenshotMeta r) "page_index"
          = some (MetaVal.nat r.node.page_index))
    ∧ ((apage_figure_nodes_to_node_with_score send (some rawf) project_id).1
      = Except.ok (rawf.map (fun r =>
          { node := { image := base64Encode (send (FetchCall.figure
                        r.node.file_id r.node.page_index r.node.figure_name
                        project_id)).content,
                      metadata := figureMeta r },
            score := r.score })))
    ∧ (∀ r : PageFigureNodeWithScore,
        dictLookup (figureMeta r) "file_id"
          = some (MetaVal.str r.node.file_id)
        ∧ dictLookup (figureMeta r) "page_index"
          = some (MetaVal.nat r.node.page_index)
        ∧ dictLookup (figureMeta r) "figure_name"
          = some (MetaVal.str r.node.figure_name)) := by
  refine ⟨?_, ?_, ?_, ?_⟩
  · cases raws with
    | nil => rfl
    | cons x xs =>
      have hall : ∀ r ∈ x :: xs,
          aget_page_screenshot send r.node.file_id r.node.page_index
              project_id
            = Except.ok (send (FetchCall.screenshot r.node.file_id
                r.node.page_index project_id)).content :=
        fun r hr => aget_page_screenshot_ok send _ _ _ (hs r hr)
      have hjobs := run_jobs_map_ok
        (fun r => aget_page_screenshot send r.node.file_id r.node.page_index
          project_id)
        (fun r => (send (FetchCall.screenshot r.node.file_id r.node.page_index
          project_id)).content)
        (x :: xs) hall
      simp only [apage_screenshot_nodes_to_node_with_score]
      rw [hjobs]
      simp only [screenshotZipBuild]
      rw [map_zip_self]
  · intro r
    refine ⟨?_, ?_⟩
    · unfold screenshotMeta
      rw [dictLookup_dictInsert_ne _ _ _ _ (by decide)]
      exact dictLookup_dictInsert_self _ _ _
    · unfold screenshotMeta
      exact dictLookup_dictInsert_self _ _ _
  · cases rawf with
    | nil => rfl
    | cons x xs =>
      have hall : ∀ r ∈ x :: xs,
          aget_page_figure send r.node.file_id r.node.page_index
              r.node.figure_name project_id
            = Except.ok (send (FetchCall.figure r.node.file_id
                r.node.page_index r.node.figure_name project_id)).content :=
        fun r hr => aget_page_figure_ok send _ _ _ _ (hf r hr)
      have hjobs := run_jobs_map_ok
        (fun r => aget_page_figure send r.node.file_id r.node.page_index
          r.node.figure_name project_id)
        (fun r => (send (FetchCall.figure r.node.file_id r.node.page_index
          r.node.figure_name project_id)).content)
        (x :: xs) hall
      simp only [apage_figure_nodes_to_node_with_score]
      rw [hjobs]
      simp only [figureZipBuild]
      rw [map_zip_self]
  · intro r
    refine ⟨?_, ?_, ?_⟩
    · unfold figureMeta
      rw [dictLookup_dictInsert_ne _ _ _ _ (by decide),
          dictLookup_dictInsert_ne _ _ _ _ (by decide)]
      exact dictLookup_dictInsert_self _ _ _
    · unfold figureMeta
      rw [dictLookup_dictInsert_ne _ _ _ _ (by decide)]
      exact dictLookup_dictInsert_self _ _ _
    · unfold figureMeta
      exact dictLookup_dictInsert_self _ _ _

/-- C1 witness: the combined resolver evaluated at a concrete oracle with no
pipeline id, discharging the name-path hypotheses. -/
theorem C1_resolve_project_and_pipeline_ordering_witness :
    resolve_project_and_pipeline oneClient (some "idx") none (some "alpha")
        none none
      = (Except.ok (sampleProject, samplePipeline),
         [ApiCall.listProjects (some "alpha") none] ++
           [ApiCall.searchPipelines sampleProject.id (some "idx")
              PipelineType_MANAGED]) :=
  (C1_resolve_project_and_pipeline_ordering oneClient (some "idx")
    (some "alpha") none none "unused-id" sampleProject samplePipeline
    [ApiCall.listProjects (some "alpha") none]).2 rfl rfl

/-- C2 witness: the async converters evaluated at a concrete always-200
transport and concrete one-record inputs. -/
theorem C2_async_conversion_pointwise_witness :
    ((apage_screenshot_nodes_to_node_with_score sampleSend
        (some [sampleShotRecord]) "proj-1").1
      = Except.ok ([sampleShotRecord].map (fun r =>
          { node := { image := base64Encode (sampleSend (FetchCall.screenshot
                        r.node.file_id r.node.page_index "proj-1")).content,
                      metadata := screenshotMeta r },
            score := r.score })))
    ∧ ((apage_figure_nodes_to_node_with_score sampleSend
        (some [sampleFigRecord]) "proj-1").1
      = Except.ok ([sampleFigRecord].map (fun r =>
          { node := { image := base64Encode (sampleSend (FetchCall.figure
                        r.node.file_id r.node.page_index r.node.figure_name
                        "proj-1")).content,
                      metadata := figureMeta r },
            score := r.score }))) := by
  have h := C2_async_conversion_pointwise sampleSend "proj-1"
    [sampleShotRecord] [sampleFigRecord]
    (by intro r hr; simp [sampleSend])
    (by intro r hr; simp [sampleSend])
  exact ⟨h.1, h.2.2.1⟩

/-- C3 witness: name resolution evaluated at oracles with zero, two and one
remote matches, for both projects and pipelines. -/
theorem C3_name_resolution_match_cardinality_witness :
    resolve_project emptyClient (some "alpha") none none
      = (Except.error (Exc.valueError
          ("No project found with name " ++ pystr (some "alpha"))),
         [ApiCall.listProjects (some "alpha") none])
    ∧ resolve_project dupClient (some "alpha") none none
      = (Except.error (Exc.valueError
          ("Multiple projects found with name " ++ pystr (some "alpha") ++
            ". Please specify organization_id.")),
         [ApiCall.listProjects (some "alpha") none])
    ∧ resolve_project oneClient (some "alpha") none none
      = (Except.ok sampleProject, [ApiCall.listProjects (some "alpha") none])
    ∧ resolve_pipeline emptyClient none (some sampleProject) (some "idx")
      = (Except.error (Exc.valueError
          ("Unknown index name " ++ pystr (some "idx") ++
            ". Please confirm an index with this name exists.")),
         [ApiCall.searchPipelines sampleProject.id (some "idx")
            PipelineType_MANAGED])
    ∧ resolve_pipeline dupClient none (some sampleProject) (some "idx")
      = (Except.error (Exc.valueError
          ("Multiple pipelines found with name " ++ pystr (some "idx") ++
            " in project " ++ sampleProject.name)),
         [ApiCall.searchPipelines sampleProject.id (some "idx")
            PipelineType_MANAGED])
    ∧ resolve_pipeline oneClient none (some sampleProject) (some "idx")
      = (Except.ok samplePipeline,
         [ApiCall.searchPipelines sampleProject.id (some "idx")
            PipelineType_MANAGED]) :=
  ⟨(C3_name_resolution_match_cardinality emptyClient (some "alpha") none
      (some "idx") sampleProject sampleProject samplePipeline).1 rfl,
   (C3_name_resolution_match_cardinality dupClient (some "alpha") none
      (some "idx") sampleProject sampleProject samplePipeline).2.1
     sampleProject { id := "proj-2", name := "alpha" } [] rfl,
   (C3_name_resolution_match_cardinality oneClient (some "alpha") none
      (some "idx") sampleProject sampleProject samplePipeline).2.2.1 rfl,
   (C3_name_resolution_match_cardinality emptyClient (some "alpha") none
      (some "idx") sampleProject sampleProject samplePipeline).2.2.2.1 rfl,
   (C3_name_resolution_match_cardinality dupClient (some "alpha") none
      (some "idx") sampleProject sampleProject samplePipeline).2.2.2.2.1
     samplePipeline { id := "pipe-2", name := "idx", project_id := "proj-1" }
     [] rfl,
   (C3_name_resolution_match_cardinality oneClient (some "alpha") none
      (some "idx") sampleProject sampleProject samplePipeline).2.2.2.2.2 rfl⟩

/-- C4 witness: the retriever resolver evaluated at a concrete oracle on all
branches, discharging the non-empty-string and no-exact-match hypotheses. -/
theorem C4_resolve_retriever_behaviour_witness :
    resolve_retriever oneClient 0 sampleProject (some "retr") none false
      = (some { id := uuidStr 0, project_id := sampleProject.id,
                name := some "retr", pipelines := [] }, [])
    ∧ uuidStr 0 ≠ uuidStr 1
    ∧ resolve_retriever oneClient 0 sampleProject (some "retr")
        (some "ret-1") true
      = (some (oneClient.get_retriever "ret-1" sampleProject.id),
         [ApiCall.getRetriever "ret-1" sampleProject.id])
    ∧ resolve_retriever oneClient 0 sampleProject (some "retr") none true
      = ((oneClient.list_retrievers sampleProject.id "retr").find?
           (fun r => r.name == some "retr"),
         [ApiCall.listRetrievers sampleProject.id "retr"])
    ∧ (resolve_retriever oneClient 0 sampleProject (some "nomatch") none
        true).1 = none
    ∧ resolve_retriever oneClient 0 sampleProject none none true
      = (none, []) := by
  have h := C4_resolve_retriever_behaviour oneClient 0 1 sampleProject
    (some "retr") "ret-1" "retr"
  have h2 := C4_resolve_retriever_behaviour oneClient 0 1 sampleProject
    (some "nomatch") "ret-1" "nomatch"
  exact ⟨h.1, h.2.1 (by decide), h.2.2.1 (by decide), h.2.2.2.1 (by decide),
    h2.2.2.2.2.1 (by decide) (by decide), h.2.2.2.2.2⟩

/-- C6 witness: the retry wrapper evaluated at a constant retryable-failure
oracle and a constant non-retryable-failure oracle. -/
theorem C6_retry_budget_and_reraise_witness :
    (retry_on_failure failingCall).2 ≤ 5
    ∧ retry_on_failure fatalCall
      = (Except.error (Exc.apiError 404 "missing"), 1)
    ∧ retry_on_failure failingCall
      = (Except.error (Exc.apiError 503 "unavailable"), 5) := by
  have h := C6_retry_budget_and_reraise (α := List Nat)
  refine ⟨h.1 failingCall,
    h.2.1 fatalCall (Exc.apiError 404 "missing") rfl rfl,
    h.2.2 failingCall (Exc.apiError 503 "unavailable") ?_ rfl⟩
  intro i hi
  exact ⟨Exc.apiError 503 "unavailable", rfl, rfl⟩

/-- C8 witness: id-based resolution evaluated at a concrete oracle,
discharging the non-empty retriever-id hypothesis. -/
theorem C8_id_resolution_never_lists_witness :
    resolve_project oneClient (some "alpha") (some "proj-1") none
      = (Except.ok (oneClient.get_project "proj-1"),
         [ApiCall.getProject "proj-1"])
    ∧ resolve_pipeline oneClient (some "pipe-1") none (some "idx")
      = (Except.ok (oneClient.get_pipeline "pipe-1"),
         [ApiCall.getPipeline "pipe-1"])
    ∧ resolve_retriever oneClient 0 sampleProject (some "retr")
        (some "ret-1") true
      = (some (oneClient.get_retriever "ret-1" sampleProject.id),
         [ApiCall.getRetriever "ret-1" sampleProject.id])
    ∧ (resolve_retriever oneClient 0 sampleProject (some "retr")
        (some "ret-1") true).2.all (fun c => !isListOrSearch c) = true := by
  have h := C8_id_resolution_never_lists oneClient "proj-1" "pipe-1" "ret-1"
    (some "alpha") none (some "idx") none sampleProject 0 (some "retr")
  exact ⟨h.1, h.2.2.1, h.2.2.2.2.1 (by decide), h.2.2.2.2.2 (by decide)⟩

/-- C10 witness: the non-persisted resolver evaluated at a concrete oracle
with a supplied retriever id, discharging the freshness hypothesis. -/
theorem C10_nonpersisted_ignores_retriever_id_witness :
    resolve_retriever oneClient 0 sampleProject (some "retr") (some "r") false
      = (some { id := uuidStr 0, project_id := sampleProject.id,
                name := some "retr", pipelines := [] }, [])
    ∧ ({ id := uuidStr 0, project_id := sampleProject.id, name := some "retr",
         pipelines := [] } : Retriever).id ≠ "r" := by
  have h := C10_nonpersisted_ignores_retriever_id oneClient 0 sampleProject
    (some "retr") "r"
  exact ⟨h.1, h.2.2 (by decide) _ rfl⟩
